import Mathlib

/-!
# Verification of the Pegmatite AST construction layer (`source/ast.hpp`)

This file gives a shallow embedding of the AST construction subsystem of the
Pegmatite PEG library and proves/refutes the frozen specification claims
against it.

Modelling conventions:
* A C++ class participating in the lightweight RTTI scheme (`PARSELIB_RTTI`)
  is modelled by `RTTIClass`.  The per-class static tag returned by
  `classKind()` (the address of a `static char` local, unique per class) is
  modelled by the class value itself, so pointer equality of tags becomes
  decidable equality of `RTTIClass`.
* An `ASTNode` on the shared stack is modelled by its concrete class together
  with a numeric identity (standing for its heap address).
* `ASTStack` (a `std::vector<ASTNode*>` used through `back`/`pop_back`/
  `push_back` only) is modelled as a list whose *head* is the vector's back,
  i.e. the stack top; `push_back` is `cons`, `pop_back` is `tail`.
* Undefined behaviour — calling `back()` on an empty vector, or a member call
  through a null pointer — is modelled by returning `none` from an
  `Option`-valued function.
* The `parent_node` back-pointer bookkeeping (`_set_parent`, assignments to
  `obj->parent_node`) is not modelled: no frozen claim mentions it.
-/

/-- A class in the lightweight RTTI hierarchy of `ast.hpp`: either the root
class `ASTNode` (tag defined at `ast.hpp` lines 120-127) or a class declared
with `PARSELIB_RTTI(thisclass, superclass)` (lines 59-77), which records its
superclass.  The `tag` argument distinguishes sibling classes; structural
equality of `RTTIClass` values models address equality of the per-class
`static char` tags. -/
inductive RTTIClass where
  | astNode : RTTIClass
  | derived (superclass : RTTIClass) (tag : Nat) : RTTIClass
deriving DecidableEq, Repr

/-- `classKind()` of a class: its unique static tag.  Since a class is
identified with its tag in this model, this is the identity. -/
def classKind (c : RTTIClass) : RTTIClass := c

/-- The virtual `isa(char *x)` method: for the root class `ASTNode` it is
`x == classKind()` (`ast.hpp` lines 129-132); for a class defined with
`PARSELIB_RTTI(thisclass, superclass)` it is
`(x == kind()) || (superclass::kind() == x)` (lines 72-76), where `kind()`
dispatches to the concrete class's tag and `superclass::kind()` is a
statically bound call returning the immediate superclass's tag. -/
def RTTIClass.isa : RTTIClass → RTTIClass → Bool
  | .astNode, x => x == classKind .astNode
  | .derived s t, x => x == classKind (.derived s t) || classKind s == x

/-- The chain of proper ancestors of a class, nearest first.  This is the
set of types `T` for which a safe downcast (`dynamic_cast`, the `USE_RTTI`
variant at `ast.hpp` lines 141-147) from the concrete class would succeed,
besides the class itself. -/
def RTTIClass.ancestors : RTTIClass → List RTTIClass
  | .astNode => []
  | .derived s _ => s :: s.ancestors

/-- `ASTContainer` is declared with `PARSELIB_RTTI(ASTContainer, ASTNode)`
(`ast.hpp` line 193). -/
def clsASTContainer : RTTIClass := .derived .astNode 0

/-- A user node class declared with `PARSELIB_RTTI(C, ASTContainer)`, i.e. at
distance two from the root `ASTNode` class. -/
def clsDemoContainer : RTTIClass := .derived clsASTContainer 1

/-- An AST node as it appears on the shared stack: its concrete class plus a
numeric identity standing for its address. -/
structure ASTNode where
  cls : RTTIClass
  id : Nat
deriving DecidableEq, Repr

/-- The template method `isa<T>()` (`ast.hpp` lines 133-136): virtual
`isa(T::classKind())` on the node's concrete class. -/
def ASTNode.isa (nd : ASTNode) (T : RTTIClass) : Bool :=
  nd.cls.isa (classKind T)

/-- The template method `get_as<T>()` (`ast.hpp` lines 137-140):
`isa<T>() ? static_cast<T*>(this) : 0`. -/
def ASTNode.get_as (nd : ASTNode) (T : RTTIClass) : Option ASTNode :=
  if nd.isa T then some nd else none

/-- The shared AST stack (`typedef std::vector<ASTNode *> ASTStack`,
`ast.hpp` line 49).  The list head models the vector's back, i.e. the top. -/
abbrev ASTStack := List ASTNode

/-- `ASTPtr<T, OPT>::construct` (`ast.hpp` lines 319-346).  Arguments: the
slot's declared subtype `T`, the `OPT` template flag, the slot's current
`ptr` field, and the stack.  Returns the new `ptr` field and the new stack.
The original `if (st.empty()) throw ...` guard is commented out in the
source, so on an empty stack the code reaches `st.back()`, which is
undefined behaviour on an empty vector: modelled as `none`. -/
def ASTPtr.construct (T : RTTIClass) (OPT : Bool) (ptr : Option ASTNode) :
    ASTStack → Option (Option ASTNode × ASTStack)
  | [] => none
  | node :: rest =>
      let obj : Option ASTNode := node.get_as T
      if OPT ∧ obj = Option.none then
        some (ptr, node :: rest)
      else
        some (obj, rest)

/-- `ASTList<T>::construct` (`ast.hpp` lines 404-431).  Arguments: the
declared subtype `T`, the slot's current `child_objects` list (a `std::list`
iterated front to back), and the stack.  The loop pops matching nodes from
the stack top and `push_front`s them onto the child list; it stops without
error at the first mismatch or when the stack is exhausted. -/
def ASTList.construct (T : RTTIClass) (childObjects : List ASTNode) :
    ASTStack → List ASTNode × ASTStack
  | [] => (childObjects, [])
  | node :: rest =>
      match node.get_as T with
      | none => (childObjects, node :: rest)
      | some obj => ASTList.construct T (obj :: childObjects) rest

/-- A member slot of a container, carrying its current state: either an
`ASTPtr<T, OPT>` (its `ptr` field) or an `ASTList<T>` (its `child_objects`
list). -/
inductive MemberSlot where
  | ptrSlot (T : RTTIClass) (OPT : Bool) (ptr : Option ASTNode)
  | listSlot (T : RTTIClass) (childObjects : List ASTNode)
deriving DecidableEq, Repr

/-- Dispatch of the virtual `ASTMember::construct` (`ast.hpp` line 226) to
the concrete slot kind.  `ASTList::construct` never fails; `ASTPtr`'s can hit
the empty-stack undefined behaviour. -/
def MemberSlot.construct (m : MemberSlot) (st : ASTStack) :
    Option (MemberSlot × ASTStack) :=
  match m with
  | .ptrSlot T OPT ptr =>
      (ASTPtr.construct T OPT ptr st).map fun p => (.ptrSlot T OPT p.1, p.2)
  | .listSlot T kids =>
      let p := ASTList.construct T kids st
      some (.listSlot T p.1, p.2)

/-- The declaration of a member slot field in a container class, used to
build the default-constructed (fresh) slot. -/
inductive SlotDecl where
  | ptrDecl (T : RTTIClass) (OPT : Bool)
  | listDecl (T : RTTIClass)
deriving DecidableEq, Repr

/-- The default-constructed slot for a declaration: `ASTPtr`'s default
constructor sets `ptr` to null (`ast.hpp` line 248); `ASTList`'s default
constructor leaves `child_objects` empty (line 370). -/
def SlotDecl.fresh : SlotDecl → MemberSlot
  | .ptrDecl T OPT => .ptrSlot T OPT none
  | .listDecl T => .listSlot T []

/-- Modelled from the spec: `ASTContainer::construct` is only declared in
`ast.hpp` (lines 182-187, "Asks all members to construct themselves from the
stack.  The members are asked to construct themselves in reverse order."); its
body lives in a translation unit absent from `src/`.  Following the header
comment and the spec ("slots are invoked in reverse of registration order"),
the registered members — listed here in registration order — construct
themselves from the stack starting with the last-registered one; the returned
list keeps registration order. -/
def ASTContainer.construct :
    List MemberSlot → ASTStack → Option (List MemberSlot × ASTStack)
  | [], st => some ([], st)
  | m :: ms, st => do
      let (ms2, st2) ← ASTContainer.construct ms st
      let (m2, st3) ← m.construct st2
      return (m2 :: ms2, st3)

/-- The `parse_proc` bound by the `ast<T>` helper (`ast.hpp` lines 496-505):
default-construct the node (its slot fields register fresh, in declaration
order), run its `construct` exactly once over the shared stack, then push the
new node.  `cls` is the node class and `nodeId` the fresh node's identity. -/
def astParseProc (cls : RTTIClass) (nodeId : Nat) (decls : List SlotDecl)
    (st : ASTStack) : Option (List MemberSlot × ASTStack) :=
  (ASTContainer.construct (decls.map SlotDecl.fresh) st).map
    fun p => (p.1, (⟨cls, nodeId⟩ : ASTNode) :: p.2)

/-- Modelled from the spec: the bodies of `ASTContainer(const ASTContainer&)`
and `ASTMember::_init` are in a translation unit absent from `src/`.  The
header comments (`ast.hpp` lines 167-171: "sets the container under
construction to be this.  Members are not copied.") and the spec ("copies
start with an empty registration set and re-register fresh slots") say the
copy's member vector starts empty and each member field, as it is built
during the copy's own construction, registers itself in declaration order.
`srcMembers` is the source container's registration vector; the field
declarations `decls` come from the container's class, not from the source
object. -/
def ASTContainer.copyCtorMembers (_srcMembers : List MemberSlot)
    (decls : List SlotDecl) : List MemberSlot :=
  decls.foldl (fun acc d => acc ++ [d.fresh]) []

/-- `ASTContainer::operator=` (`ast.hpp` lines 178-180): `return *this;` —
the target's member registration vector is left untouched and nothing is
taken from the source. -/
def ASTContainer.assign (targetMembers _srcMembers : List MemberSlot) :
    List MemberSlot :=
  targetMembers

/-- The typed parse wrapper `ASTParserDelegate::parse<T>` (`ast.hpp` lines
478-485).  Its input here is the result of the untyped `parserlib::parse`
(declared at line 467; per its comment it returns "pointer to ast node
created, or null if there was an error"), modelled as `Option ASTNode`.
Returns `(success, ast-output-argument, deleted-nodes)`.  When the untyped
result is null, the wrapper still calls `node->get_as<T>()` — a member call
through a null pointer, undefined behaviour, modelled as `none`. -/
def ASTParserDelegate.parse (T : RTTIClass) (parseResult : Option ASTNode) :
    Option (Bool × Option ASTNode × List ASTNode) :=
  match parseResult with
  | none => none
  | some node =>
      match node.get_as T with
      | some obj => some (true, some obj, [])
      | none => some (false, none, [node])

/-!
## Node trees for the deep-copy claims

For the value-copy semantics (`ASTPtr`/`ASTList` copy constructors and
`operator=`, `ast.hpp` lines 252-290 and 375-455) a flat stack node is not
enough: copies recurse through the owned children.  A `NodeTree` is a
container node with one `ASTPtr<T>` field and one `ASTList<T>` field (leaves
have a null pointer field and an empty list field); `PtrField` and
`ListField` are the states of those two fields.  Every node carries its
concrete class and a numeric identity standing for its heap address.
-/

mutual
inductive NodeTree where
  | node (cls : RTTIClass) (id : Nat) (ptrChild : PtrField)
      (listChildren : ListField)
inductive PtrField where
  | nullP
  | ownP (t : NodeTree)
inductive ListField where
  | nilL
  | consL (hd : NodeTree) (tl : ListField)
end

/-!
Duplication with a fresh-address allocator: `dup t n` copies the tree `t`
giving every copied node a fresh identity drawn from the counter `n`, and
returns the copy together with the next unused counter value.  This models:
* the node's own copy constructor (memberwise copy of the fields, class
  preserved since `new T(*src)` builds the same concrete type);
* in `PtrField.dup`, `ASTPtr`'s copy constructor
  `ptr(src.ptr ? new T(*src.ptr) : 0)` (`ast.hpp` lines 256-260), faithful
  to the source: the pointee is duplicated via its own copy operation, null
  stays null;
* in `ListField.dup`, the *intended* semantics of `ASTList::_dup`
  (`ast.hpp` lines 446-455): each element duplicated via the pointee's own
  copy operation and appended with `push_back`, preserving order.  The
  source line 451 itself, `new T(*it)`, is NOT this: `child_objects` is a
  `std::list<T *>`, so `*it` is the stored element *pointer* (`T * const&`),
  not the pointee — the dereference is missing, the pointee's copy
  constructor is never invoked, and for a node type `T` (which has no
  constructor taking `T *`) instantiating `_dup` is ill-formed.  The evident
  intent is `new T(**it)`, matching `ASTPtr`'s correct `new T(*src.ptr)` at
  line 257 and the `_dup` doc comment "duplicate the given list"; having no
  well-formed source behaviour to translate, `ListField.dup` follows that
  intent, and claim C7 records the missing dereference as a code bug.
-/

mutual
def NodeTree.dup : NodeTree → Nat → NodeTree × Nat
  | .node c _ p kids, n =>
      (.node c n (PtrField.dup p (n + 1)).1
        (ListField.dup kids (PtrField.dup p (n + 1)).2).1,
       (ListField.dup kids (PtrField.dup p (n + 1)).2).2)
def PtrField.dup : PtrField → Nat → PtrField × Nat
  | .nullP, n => (.nullP, n)
  | .ownP t, n => (.ownP (NodeTree.dup t n).1, (NodeTree.dup t n).2)
def ListField.dup : ListField → Nat → ListField × Nat
  | .nilL, n => (.nilL, n)
  | .consL t ts, n =>
      (.consL (NodeTree.dup t n).1 (ListField.dup ts (NodeTree.dup t n).2).1,
       (ListField.dup ts (NodeTree.dup t n).2).2)
end

/-! The identities (addresses) of all nodes in a tree / field. -/

mutual
def NodeTree.ids : NodeTree → List Nat
  | .node _ i p kids => i :: (PtrField.ids p ++ ListField.ids kids)
def PtrField.ids : PtrField → List Nat
  | .nullP => []
  | .ownP t => NodeTree.ids t
def ListField.ids : ListField → List Nat
  | .nilL => []
  | .consL t ts => NodeTree.ids t ++ ListField.ids ts
end

/-! The identity-free shape of a tree: classes and structure (including the
left-to-right order of list children), with every address erased to 0. -/

mutual
def NodeTree.shape : NodeTree → NodeTree
  | .node c _ p kids => .node c 0 (PtrField.shape p) (ListField.shape kids)
def PtrField.shape : PtrField → PtrField
  | .nullP => .nullP
  | .ownP t => .ownP (NodeTree.shape t)
def ListField.shape : ListField → ListField
  | .nilL => .nilL
  | .consL t ts => .consL (NodeTree.shape t) (ListField.shape ts)
end

/-! A mutation of an owned child: overwrite the class of the node whose
identity (address) is `tgt`.  Mutating through the duplicate's pointers only
ever targets identities of the duplicate. -/

mutual
def NodeTree.setCls (tgt : Nat) (c : RTTIClass) : NodeTree → NodeTree
  | .node c0 i p kids =>
      .node (if i = tgt then c else c0) i (PtrField.setCls tgt c p)
        (ListField.setCls tgt c kids)
def PtrField.setCls (tgt : Nat) (c : RTTIClass) : PtrField → PtrField
  | .nullP => .nullP
  | .ownP t => .ownP (NodeTree.setCls tgt c t)
def ListField.setCls (tgt : Nat) (c : RTTIClass) : ListField → ListField
  | .nilL => .nilL
  | .consL t ts => .consL (NodeTree.setCls tgt c t) (ListField.setCls tgt c ts)
end

/-! Concrete classes and nodes used in counterexamples and witnesses. -/

/-- A user leaf class declared with `PARSELIB_RTTI(Num, ASTNode)`. -/
def clsNum : RTTIClass := .derived .astNode 2

/-- A sibling user class declared with `PARSELIB_RTTI(Op, ASTNode)`:
it shares only the common ancestor `ASTNode` with `clsNum`. -/
def clsOp : RTTIClass := .derived .astNode 3

/-- A small concrete tree: a container node owning a pointer child and two
list children, with identities 0-3. -/
def demoTree : NodeTree :=
  .node clsDemoContainer 0 (.ownP (.node clsNum 1 .nullP .nilL))
    (.consL (.node clsNum 2 .nullP .nilL)
      (.consL (.node clsOp 3 .nullP .nilL) .nilL))

/-!
## Helper lemmas

Allocator and frame lemmas about `dup`, `ids`, `shape` and `setCls`, proved
by mutual structural induction over the tree types, plus small list lemmas.
-/

mutual
theorem nodeTree_dup_ids_ge : ∀ (t : NodeTree) (n : Nat),
    n ≤ (NodeTree.dup t n).2 ∧ ∀ i ∈ (NodeTree.dup t n).1.ids, n ≤ i
  | .node _ _ p kids, n => by
      have hp := ptrField_dup_ids_ge p (n + 1)
      have hk := listField_dup_ids_ge kids (PtrField.dup p (n + 1)).2
      simp only [NodeTree.dup, NodeTree.ids, List.mem_cons, List.mem_append]
      refine ⟨by omega, ?_⟩
      rintro i (rfl | hi | hi)
      · omega
      · have := hp.2 i hi; omega
      · have h1 := hp.1; have := hk.2 i hi; omega
theorem ptrField_dup_ids_ge : ∀ (p : PtrField) (n : Nat),
    n ≤ (PtrField.dup p n).2 ∧ ∀ i ∈ (PtrField.dup p n).1.ids, n ≤ i
  | .nullP, n => by simp [PtrField.dup, PtrField.ids]
  | .ownP t, n => by
      have ht := nodeTree_dup_ids_ge t n
      simpa only [PtrField.dup, PtrField.ids] using ht
theorem listField_dup_ids_ge : ∀ (l : ListField) (n : Nat),
    n ≤ (ListField.dup l n).2 ∧ ∀ i ∈ (ListField.dup l n).1.ids, n ≤ i
  | .nilL, n => by simp [ListField.dup, ListField.ids]
  | .consL t ts, n => by
      have ht := nodeTree_dup_ids_ge t n
      have hts := listField_dup_ids_ge ts (NodeTree.dup t n).2
      simp only [ListField.dup, ListField.ids, List.mem_append]
      refine ⟨by omega, ?_⟩
      rintro i (hi | hi)
      · exact ht.2 i hi
      · have h1 := ht.1; have := hts.2 i hi; omega
end

mutual
theorem nodeTree_dup_shape : ∀ (t : NodeTree) (n : Nat),
    (NodeTree.dup t n).1.shape = t.shape
  | .node _ _ p kids, n => by
      simp only [NodeTree.dup, NodeTree.shape]
      rw [ptrField_dup_shape, listField_dup_shape]
theorem ptrField_dup_shape : ∀ (p : PtrField) (n : Nat),
    (PtrField.dup p n).1.shape = p.shape
  | .nullP, _ => rfl
  | .ownP t, n => by
      simp only [PtrField.dup, PtrField.shape]
      rw [nodeTree_dup_shape]
theorem listField_dup_shape : ∀ (l : ListField) (n : Nat),
    (ListField.dup l n).1.shape = l.shape
  | .nilL, _ => rfl
  | .consL t ts, n => by
      simp only [ListField.dup, ListField.shape]
      rw [nodeTree_dup_shape, listField_dup_shape]
end

mutual
theorem nodeTree_setCls_not_mem : ∀ (t : NodeTree) (tgt : Nat) (c : RTTIClass),
    tgt ∉ t.ids → NodeTree.setCls tgt c t = t
  | .node c0 i p kids, tgt, c => by
      intro h
      simp only [NodeTree.ids, List.mem_cons, List.mem_append, not_or] at h
      obtain ⟨h1, h2, h3⟩ := h
      have hne : i ≠ tgt := fun hh => h1 hh.symm
      simp only [NodeTree.setCls, if_neg hne]
      rw [ptrField_setCls_not_mem p tgt c h2, listField_setCls_not_mem kids tgt c h3]
theorem ptrField_setCls_not_mem : ∀ (p : PtrField) (tgt : Nat) (c : RTTIClass),
    tgt ∉ p.ids → PtrField.setCls tgt c p = p
  | .nullP, _, _ => fun _ => rfl
  | .ownP t, tgt, c => by
      intro h
      simp only [PtrField.ids] at h
      simp only [PtrField.setCls]
      rw [nodeTree_setCls_not_mem t tgt c h]
theorem listField_setCls_not_mem : ∀ (l : ListField) (tgt : Nat) (c : RTTIClass),
    tgt ∉ l.ids → ListField.setCls tgt c l = l
  | .nilL, _, _ => fun _ => rfl
  | .consL t ts, tgt, c => by
      intro h
      simp only [ListField.ids, List.mem_append, not_or] at h
      simp only [ListField.setCls]
      rw [nodeTree_setCls_not_mem t tgt c h.1, listField_setCls_not_mem ts tgt c h.2]
end

theorem astlist_construct_general (T : RTTIClass) :
    ∀ (st : ASTStack) (acc : List ASTNode),
    ASTList.construct T acc st
      = ((st.takeWhile fun nd => nd.isa T).reverse ++ acc,
         st.dropWhile fun nd => nd.isa T)
  | [], acc => by simp [ASTList.construct]
  | nd :: rest, acc => by
      by_cases h : nd.isa T
      · have ih := astlist_construct_general T rest (nd :: acc)
        simp [ASTList.construct, ASTNode.get_as, h, ih,
          List.takeWhile_cons, List.dropWhile_cons]
      · simp [ASTList.construct, ASTNode.get_as, h,
          List.takeWhile_cons, List.dropWhile_cons]

theorem copyctor_foldl_eq_map (decls : List SlotDecl) :
    ∀ init : List MemberSlot,
      decls.foldl (fun acc d => acc ++ [d.fresh]) init
        = init ++ decls.map SlotDecl.fresh := by
  induction decls with
  | nil => simp
  | cons d ds ih => intro init; simp [List.foldl_cons, ih]

/-!
## Claim theorems
-/

/-- C1: the claim says `isa<T>()` / `get_as<T>()` succeed exactly when `T` is
the concrete type or an ancestor at any distance, in particular for every
transitive ancestor including the root `ASTNode` type.  The code disagrees:
the `PARSELIB_RTTI` `isa` compares only the concrete class's own tag and the
immediate superclass's tag (`superclass::kind()`), so a class two levels
below `ASTNode` — any `PARSELIB_RTTI(C, ASTContainer)` user class — answers
`false` for its grandparent `ASTNode` although `ASTNode` is a transitive
ancestor (and although the `USE_RTTI` `dynamic_cast` variant would succeed),
while still answering `true` for its immediate superclass `ASTContainer`. -/
theorem isa_misses_transitive_ancestor :
    RTTIClass.astNode ∈ clsDemoContainer.ancestors
      ∧ clsDemoContainer.isa (classKind RTTIClass.astNode) = false
      ∧ (ASTNode.mk clsDemoContainer 0).get_as RTTIClass.astNode = none
      ∧ clsDemoContainer.isa (classKind clsASTContainer) = true
      ∧ clsDemoContainer.isa (classKind clsDemoContainer) = true := by
  decide

/-- C2 counterexample: the claim says a mandatory (`OPT == false`) slot
removes an element iff the stack is non-empty *and* the top matches `T`, and
that on a mismatch no element is removed.  But on a stack whose top is an
`Op` node, a mandatory slot expecting `Num` still pops it: the result stack
is `[]`, not the untouched `[op]`, and the slot is left null. -/
theorem astptr_mandatory_pops_mismatch_cex :
    (ASTNode.mk clsOp 0).isa clsNum = false
      ∧ ASTPtr.construct clsNum false none [⟨clsOp, 0⟩] = some (none, [])
      ∧ ASTPtr.construct clsNum false none [⟨clsOp, 0⟩]
          ≠ some (none, [⟨clsOp, 0⟩]) := by
  decide

/-- C2 amended: a mandatory (`OPT == false`) `ASTPtr` slot removes exactly
one element from the stack whenever the stack is non-empty, regardless of
whether the top matches `T`: the unconditional `st.pop_back()` runs, and the
slot's pointer becomes `get_as<T>` of the popped node (the node itself when
it matches, null when it does not).  On an empty stack the commented-out
guard lets the code call `back()` on an empty vector, which is undefined
behaviour (modelled as `none`). -/
theorem astptr_mandatory_construct_characterization (T : RTTIClass)
    (ptr : Option ASTNode) :
    ASTPtr.construct T false ptr [] = none
      ∧ ∀ (nd : ASTNode) (st : ASTStack),
          ASTPtr.construct T false ptr (nd :: st) = some (nd.get_as T, st) := by
  refine ⟨rfl, fun nd st => ?_⟩
  simp [ASTPtr.construct]

/-- C3: the claim says an optional slot facing a non-matching top leaves the
stack untouched and holds nothing — which the code does — but it also says
the same for an *empty* stack, where the code instead reaches the
unconditional `st.back()` (the emptiness guard is commented out), undefined
behaviour on an empty vector, modelled as `none` rather than as the claimed
"stack unchanged, slot empty" outcome. -/
theorem astptr_optional_construct_behavior (T : RTTIClass)
    (ptr : Option ASTNode) :
    ASTPtr.construct T true ptr [] = none
      ∧ ∀ (nd : ASTNode) (st : ASTStack), nd.isa T = false →
          ASTPtr.construct T true ptr (nd :: st) = some (ptr, nd :: st) := by
  refine ⟨rfl, fun nd st h => ?_⟩
  simp [ASTPtr.construct, ASTNode.get_as, h]

/-- Witness for `astptr_optional_construct_behavior` at `T = Num`, a fresh
(null) optional slot, and the one-element stack `[Op]`. -/
theorem astptr_optional_construct_behavior_witness :
    ASTPtr.construct clsNum true none [] = none
      ∧ (ASTNode.mk clsOp 0).isa clsNum = false
      ∧ ASTPtr.construct clsNum true none [⟨clsOp, 0⟩]
          = some (none, [⟨clsOp, 0⟩]) :=
  ⟨(astptr_optional_construct_behavior clsNum none).1,
   by decide,
   (astptr_optional_construct_behavior clsNum none).2 ⟨clsOp, 0⟩ [] (by decide)⟩

/-- C4: `ASTList<T>::construct` on a fresh slot pops exactly the maximal
matching prefix of the stack (reading from the top), stops at the first
mismatch or when the stack is exhausted, and never signals an error (it is a
total function).  Because each popped node is `push_front`ed, the resulting
child list is the reverse of the pop order: since the list head here is the
stack top (the most recently pushed node), `reverse ∘ takeWhile` lists the
matched children bottom-of-segment first, i.e. in their original
left-to-right push (parse) order, and the rest of the stack — starting with
the first mismatch, if any — is left untouched. -/
theorem astlist_construct_characterization (T : RTTIClass) (st : ASTStack) :
    ASTList.construct T [] st
      = ((st.takeWhile fun nd => nd.isa T).reverse,
         st.dropWhile fun nd => nd.isa T) := by
  simpa using astlist_construct_general T st []

/-- C5: for a mandatory-slot type mismatch on a *non-empty* stack the claim
holds: no exception path exists (both `throw` statements are commented out),
construction continues, the mismatched node is still popped, and the slot
ends up null.  But for the other fault the claim covers — the empty stack —
the code does not "continue with a null child": with the emptiness guard
commented out it calls `back()` on an empty vector, undefined behaviour,
modelled as `none`. -/
theorem astptr_mandatory_silent_null (T : RTTIClass) (ptr : Option ASTNode) :
    (∀ (nd : ASTNode) (st : ASTStack), nd.isa T = false →
        ASTPtr.construct T false ptr (nd :: st) = some (none, st))
      ∧ ASTPtr.construct T false ptr [] = none := by
  refine ⟨fun nd st h => ?_, rfl⟩
  simp [ASTPtr.construct, ASTNode.get_as, h]

/-- Witness for `astptr_mandatory_silent_null` at `T = Num`, a fresh
mandatory slot, and the stack `[Op]`. -/
theorem astptr_mandatory_silent_null_witness :
    ((ASTNode.mk clsOp 1).isa clsNum = false
      ∧ ASTPtr.construct clsNum false none [⟨clsOp, 1⟩] = some (none, []))
      ∧ ASTPtr.construct clsNum false none [] = none :=
  ⟨⟨by decide,
    (astptr_mandatory_silent_null clsNum none).1 ⟨clsOp, 1⟩ [] (by decide)⟩,
   (astptr_mandatory_silent_null clsNum none).2⟩

theorem container_construct_cons (m0 : MemberSlot) (ms : List MemberSlot)
    (st : ASTStack) :
    ASTContainer.construct (m0 :: ms) st
      = (ASTContainer.construct ms st).bind fun p =>
          (m0.construct p.2).map fun r => (r.1 :: p.1, r.2) := by
  cases h : ASTContainer.construct ms st with
  | none => simp [ASTContainer.construct, h]
  | some p =>
      cases h2 : m0.construct p.2 with
      | none => simp [ASTContainer.construct, h, h2]
      | some r => simp [ASTContainer.construct, h, h2]

/-- C6: the container's reduction pass processes its registered member slots
in the reverse of registration order: for any registration list ending in
`m`, the last-registered slot `m` constructs itself from the incoming stack
first, and the earlier-registered slots then run (again in reverse order) on
the stack `m` left behind; each slot is invoked exactly once.  The pass
itself is driven exactly once per node by the factory bound via `ast<T>`
(`astParseProc`), which constructs the node and then pushes it. -/
theorem container_construct_reverse_registration_order
    (ms : List MemberSlot) (m : MemberSlot) (st : ASTStack) :
    ASTContainer.construct (ms ++ [m]) st
      = (m.construct st).bind fun q =>
          (ASTContainer.construct ms q.2).map fun p => (p.1 ++ [q.1], p.2) := by
  induction ms generalizing st with
  | nil =>
      rw [List.nil_append, container_construct_cons]
      cases hq : m.construct st with
      | none => simp [ASTContainer.construct, hq]
      | some q => simp [ASTContainer.construct, hq]
  | cons m0 ms ih =>
      rw [List.cons_append, container_construct_cons, ih st]
      cases hq : m.construct st with
      | none => rfl
      | some q =>
          rw [Option.some_bind, Option.some_bind,
            container_construct_cons m0 ms q.2]
          cases hp : ASTContainer.construct ms q.2 with
          | none => rfl
          | some p =>
              cases h2 : m0.construct p.2 with
              | none => simp [h2]
              | some r => simp [h2]

/-- C7: the claimed duplication semantics — `ASTPtr` clones its pointee via
the pointee's own copy operation (faithful to `ast.hpp` line 257), `ASTList`
clones every element in order (the *intended* behaviour of `_dup`; the
source line 451 `new T(*it)` passes the element pointer instead of the
pointee, a missing dereference that makes the list-copy path ill-formed for
node types, so the claim is right and the code is the slip — see
`ListField.dup`) — do give deep-copy isolation: the copy has the same
identity-free shape (same classes, same single-child structure, same
left-to-right list order) and only fresh addresses, so mutating any node
reachable from the duplicate (here: overwriting its class by address)
leaves the original tree unchanged, for both single-child and list-child
slots. -/
theorem deep_copy_isolation (t : NodeTree) (n : Nat)
    (h : ∀ i ∈ t.ids, i < n) :
    (t.dup n).1.shape = t.shape
      ∧ (∀ i ∈ (t.dup n).1.ids, n ≤ i)
      ∧ ∀ (i : Nat) (c : RTTIClass), i ∈ (t.dup n).1.ids →
          NodeTree.setCls i c t = t := by
  refine ⟨nodeTree_dup_shape t n, (nodeTree_dup_ids_ge t n).2,
    fun i c hi => ?_⟩
  have hn := (nodeTree_dup_ids_ge t n).2 i hi
  exact nodeTree_setCls_not_mem t i c fun hmem => absurd (h i hmem) (by omega)

/-- Witness for `deep_copy_isolation` on the concrete tree `demoTree`
(identities 0-3) with allocation counter 4. -/
theorem deep_copy_isolation_witness :
    (∀ i ∈ demoTree.ids, i < 4)
      ∧ ((demoTree.dup 4).1.shape = demoTree.shape
         ∧ (∀ i ∈ (demoTree.dup 4).1.ids, 4 ≤ i)
         ∧ ∀ (i : Nat) (c : RTTIClass), i ∈ (demoTree.dup 4).1.ids →
             NodeTree.setCls i c demoTree = demoTree) :=
  ⟨by decide, deep_copy_isolation demoTree 4 (by decide)⟩

/-- C8: for every non-null untyped parse result node, the typed wrapper
`ASTParserDelegate::parse<T>` returns success with the downcast node when
the node's type matches `T`, and on type mismatch deletes the untyped node
(third component: the nodes freed) and reports failure with a null output
argument. -/
theorem typed_parse_downcast_behavior (T : RTTIClass) (nd : ASTNode) :
    (nd.isa T = true →
        ASTParserDelegate.parse T (some nd) = some (true, some nd, []))
      ∧ (nd.isa T = false →
        ASTParserDelegate.parse T (some nd) = some (false, none, [nd])) := by
  constructor <;> intro h <;>
    simp [ASTParserDelegate.parse, ASTNode.get_as, h]

/-- Witness for `typed_parse_downcast_behavior`: a `Num` node downcast to
`Num` (match) and an `Op` node downcast to `Num` (mismatch). -/
theorem typed_parse_downcast_behavior_witness :
    ((ASTNode.mk clsNum 7).isa clsNum = true
      ∧ ASTParserDelegate.parse clsNum (some ⟨clsNum, 7⟩)
          = some (true, some ⟨clsNum, 7⟩, []))
    ∧ ((ASTNode.mk clsOp 8).isa clsNum = false
      ∧ ASTParserDelegate.parse clsNum (some ⟨clsOp, 8⟩)
          = some (false, none, [⟨clsOp, 8⟩])) :=
  ⟨⟨by decide, (typed_parse_downcast_behavior clsNum ⟨clsNum, 7⟩).1 (by decide)⟩,
   ⟨by decide, (typed_parse_downcast_behavior clsNum ⟨clsOp, 8⟩).2 (by decide)⟩⟩

/-- C9: a copy of an `ASTContainer` never takes over the source's member
registrations: the result of copy construction is independent of the source
container's member vector, equals exactly the fresh slots registered (in
declaration order) during the copy's own construction, and `operator=`
leaves the target's registration vector untouched. -/
theorem container_copy_never_copies_registrations :
    (∀ (src1 src2 : List MemberSlot) (decls : List SlotDecl),
        ASTContainer.copyCtorMembers src1 decls
          = ASTContainer.copyCtorMembers src2 decls)
      ∧ (∀ (src : List MemberSlot) (decls : List SlotDecl),
        ASTContainer.copyCtorMembers src decls = decls.map SlotDecl.fresh)
      ∧ ∀ (target src : List MemberSlot),
          ASTContainer.assign target src = target := by
  refine ⟨fun _ _ _ => rfl, fun src decls => ?_, fun _ _ => rfl⟩
  simpa using copyctor_foldl_eq_map decls []

/-- C10: when the underlying untyped `parserlib::parse` reports failure by
returning null, the typed wrapper `ASTParserDelegate::parse<T>` immediately
calls `node->get_as<T>()` on that null pointer with no guard: a member call
through a null pointer, undefined behaviour, modelled as `none` — there is
no branch producing a graceful `(false, null)` answer for a null parse
result. -/
theorem typed_parse_unguarded_null (T : RTTIClass) :
    ASTParserDelegate.parse T none = none := rfl
